import Mathlib

/-!
Verification development for the iconfont-mcp session / cache / auto-login
subsystem.  The definitions below are a shallow embedding of the TypeScript
source: the service class (cookie store, project-detail cache, remote
operations) and the browser login service (polling loops, cookie
extraction).  Remote I/O is modelled by passing the collaborator's reply as
an explicit argument; wall-clock time is an explicit natural-number
parameter.
-/

/-- JS `a || b` on strings: the empty string is falsy. -/
def jsOrS (a b : String) : String := if a = "" then b else a

/-- JS `a?.f || b` where the optional chain yields an optional string. -/
def jsOrO (a : Option String) (b : String) : String :=
  match a with
  | none => b
  | some s => if s = "" then b else s

/-- `IconfontProjectDetail` record shape (types.ts). -/
structure IconfontProjectDetail where
  id : String
  name : String
  icon_count : Nat
  font_family : String
  created_at : String
  updated_at : String
  username : String
deriving DecidableEq, Repr

/-- `IconfontProject` record shape (types.ts). -/
structure IconfontProject where
  id : String
  name : String
  icon_count : Nat
  updated_at : String
deriving DecidableEq, Repr

/-- `IconfontIcon` record shape (types.ts). -/
structure IconfontIcon where
  icon_id : String
  name : String
  show_svg : String
  svg : String
  font_class : Option String
  unicode : Option String
  tags : List String
deriving DecidableEq, Repr

/-- `IconfontSearchResult` record shape (types.ts). -/
structure IconfontSearchResult where
  total : Nat
  page : Nat
  page_size : Nat
  icons : List IconfontIcon
deriving DecidableEq, Repr

/-- `CacheEntry<T>` from the service source: data plus capture timestamp. -/
structure CacheEntry (T : Type) where
  data : T
  timestamp : Nat
  updatedAt : String
deriving DecidableEq, Repr

/-- Mutable fields of the `IconfontService` class instance. -/
structure SvcState where
  cookie : String
  loggedIn : Bool
  projectDetailCache : List (String × CacheEntry IconfontProjectDetail)
deriving DecidableEq, Repr

/-- JS `Map.get`. -/
def mapGet {α : Type} : List (String × α) → String → Option α
  | [], _ => none
  | (k', v') :: rest, k => if k' = k then some v' else mapGet rest k

/-- JS `Map.set`: replace in place, or append a new binding. -/
def mapSet {α : Type} : List (String × α) → String → α → List (String × α)
  | [], k, v => [(k, v)]
  | (k', v') :: rest, k, v =>
    if k' = k then (k, v) :: rest else (k', v') :: mapSet rest k v

/-- Constructor of `IconfontService`: seed the cookie from the optional
argument, else the ambient environment variable, else the empty string;
the logged-in flag is set exactly when the resulting cookie is truthy. -/
def mkService (cookie : Option String) (envCookie : Option String) : SvcState :=
  let c := jsOrS (jsOrS (cookie.getD "") (envCookie.getD "")) ""
  { cookie := c, loggedIn := c != "", projectDetailCache := [] }

/-- `setCookie`: unconditionally store the cookie and set the flag. -/
def setCookie (s : SvcState) (cookie : String) : SvcState :=
  { s with cookie := cookie, loggedIn := true }

/-- `getCookie`. -/
def getCookie (s : SvcState) : String := s.cookie

/-- `getEffectiveCookie(overrideCookie?)`: JS `overrideCookie || this.cookie`
(an absent or empty override falls back to the stored cookie). -/
def getEffectiveCookie (s : SvcState) (overrideCookie : Option String) : String :=
  jsOrS (overrideCookie.getD "") s.cookie

/-- `getLoginStatus` result. -/
structure LoginStatus where
  loggedIn : Bool
  hasCookie : Bool
deriving DecidableEq, Repr

/-- `getLoginStatus()`: the flag, and truthiness of the cookie. -/
def getLoginStatus (s : SvcState) : LoginStatus :=
  { loggedIn := s.loggedIn, hasCookie := s.cookie != "" }

/-- `isLoggedIn()`. -/
def isLoggedIn (s : SvcState) : Bool := s.loggedIn

/-- Failure shapes surfaced by the HTTP collaborator (axios): an HTTP error
status with the error message, a connection abort (timeout), or any other
error, each carrying its message string. -/
inductive AxiosFailure where
  | httpStatus (code : Nat) (msg : String)
  | connAborted (msg : String)
  | otherFailure (msg : String)
deriving DecidableEq, Repr

/-- Message carried by an axios failure (JS `error.message`). -/
def AxiosFailure.message : AxiosFailure → String
  | .httpStatus _ m => m
  | .connAborted m => m
  | .otherFailure m => m

/-- Errors thrown by the service, classified by the message families the
source produces in each catch block. -/
inductive SvcError where
  | authenticationRequired (msg : String)
  | authenticationFailed (msg : String)
  | requestTimedOut (msg : String)
  | failed (msg : String)
deriving DecidableEq, Repr

/-- Whether a thrown error is of the authentication-failed kind. -/
def SvcError.isAuthFailedKind : SvcError → Bool
  | .authenticationFailed _ => true
  | _ => false

/-- A remote reply: either the resolved response body (with `none` standing
for a body failing the `!data || !data.data` check) or a failure. -/
inductive RemoteReply (α : Type) where
  | success (body : Option α)
  | failure (e : AxiosFailure)
deriving DecidableEq, Repr

/-- Raw icon object consumed from response bodies (all fields optional). -/
structure RawIcon where
  id : Option String
  icon_id : Option String
  name : Option String
  show_svg : Option String
  svg : Option String
  font_class : Option String
  unicode : Option String
  tags : Option (List String)
deriving DecidableEq, Repr

/-- The icon-mapping expression shared by the search/list operations. -/
def iconOf (i : RawIcon) : IconfontIcon :=
  { icon_id := jsOrO i.id (jsOrO i.icon_id "")
    name := jsOrO i.name ""
    show_svg := jsOrO i.show_svg ""
    svg := jsOrO i.svg (jsOrO i.show_svg "")
    font_class := i.font_class
    unicode := i.unicode
    tags := i.tags.getD [] }

/-- Body shape consumed by the icon-list producing operations. -/
structure SearchPayload where
  total : Option Nat
  icons : Option (List RawIcon)
deriving DecidableEq, Repr

/-- Raw project object consumed by `listProjects`. -/
structure RawProject where
  id : Option String
  name : Option String
  icon_count : Option Nat
  updated_at : Option String
deriving DecidableEq, Repr

/-- Body shape consumed by `listProjects` (`data.data`). -/
structure ProjectsPayload where
  ownProjects : Option (List RawProject)
  corpProjects : Option (List RawProject)
deriving DecidableEq, Repr

/-- Raw project object consumed by `getProjectDetail`. -/
structure RawDetailProject where
  id : Option String
  name : Option String
  icon_count : Option Nat
  font_family : Option String
  created_at : Option String
  updated_at : Option String
deriving DecidableEq, Repr

/-- Body shape consumed by `getProjectDetail` (`data.data`): the project
object (absent models the `!data.data.project` check) and
`creator?.username`. -/
structure DetailPayload where
  project : Option RawDetailProject
  creatorUsername : Option String
deriving DecidableEq, Repr

/-- Catch block of `searchIcons`: 401/403 become the authentication-failed
error, a connection abort becomes the timed-out error, anything else is
wrapped generically. -/
def searchIconsCatch (e : AxiosFailure) : SvcError :=
  match e with
  | .httpStatus c m =>
    if c == 401 || c == 403 then
      .authenticationFailed "Authentication failed. Please provide a valid Iconfont cookie."
    else .failed ("Failed to search icons: " ++ m)
  | .connAborted _ => .requestTimedOut "Request timed out. Please try again."
  | .otherFailure m => .failed ("Failed to search icons: " ++ m)

/-- Catch block of `getIconDetail`: every failure is wrapped generically. -/
def getIconDetailCatch (e : AxiosFailure) : SvcError :=
  .failed ("Failed to get icon details: " ++ e.message)

/-- Catch block of `listProjects`: 401/403 become the authentication-failed
error; everything else (including connection aborts) is wrapped. -/
def listProjectsCatch (e : AxiosFailure) : SvcError :=
  match e with
  | .httpStatus c m =>
    if c == 401 || c == 403 then
      .authenticationFailed "Authentication failed. Please check your Iconfont cookie."
    else .failed ("Failed to list projects: " ++ m)
  | .connAborted m => .failed ("Failed to list projects: " ++ m)
  | .otherFailure m => .failed ("Failed to list projects: " ++ m)

/-- Catch block of `getProjectIcons`: every failure is wrapped generically. -/
def getProjectIconsCatch (e : AxiosFailure) : SvcError :=
  .failed ("Failed to get project icons: " ++ e.message)

/-- Catch block of `getProjectDetail`: 401/403 become the
authentication-failed error; everything else is wrapped. -/
def getProjectDetailCatch (e : AxiosFailure) : SvcError :=
  match e with
  | .httpStatus c m =>
    if c == 401 || c == 403 then
      .authenticationFailed "Authentication failed. Please check your Iconfont cookie."
    else .failed ("Failed to get project detail: " ++ m)
  | .connAborted m => .failed ("Failed to get project detail: " ++ m)
  | .otherFailure m => .failed ("Failed to get project detail: " ++ m)

/-- Catch block of `searchProjectIcons`: 401/403 become the
authentication-failed error; everything else is wrapped. -/
def searchProjectIconsCatch (e : AxiosFailure) : SvcError :=
  match e with
  | .httpStatus c m =>
    if c == 401 || c == 403 then
      .authenticationFailed "Authentication failed. Please check your Iconfont cookie."
    else .failed ("Failed to search project icons: " ++ m)
  | .connAborted m => .failed ("Failed to search project icons: " ++ m)
  | .otherFailure m => .failed ("Failed to search project icons: " ++ m)

/-- `searchIcons`: map the body (absent data giving an empty result), and
translate failures through its catch block.  The headers use the stored
cookie only; no state is read for gating or written. -/
def searchIcons (page pageSize : Nat) (r : RemoteReply SearchPayload) :
    Except SvcError IconfontSearchResult :=
  match r with
  | .failure e => .error (searchIconsCatch e)
  | .success none => .ok { total := 0, page := page, page_size := pageSize, icons := [] }
  | .success (some p) =>
    .ok { total := p.total.getD 0, page := page, page_size := pageSize
          icons := (p.icons.getD []).map iconOf }

/-- `getIconDetail`: absent data yields `null` (here `none`); failures are
wrapped generically. -/
def getIconDetail (r : RemoteReply RawIcon) : Except SvcError (Option IconfontIcon) :=
  match r with
  | .failure e => .error (getIconDetailCatch e)
  | .success none => .ok none
  | .success (some i) => .ok (some (iconOf i))

/-- Outcome of a service operation that may consult the remote service:
the value or error, the resulting instance state, and whether the remote
call was issued. -/
instance {ε α : Type} [DecidableEq ε] [DecidableEq α] : DecidableEq (Except ε α) :=
  fun a b =>
    match a, b with
    | .ok x, .ok y =>
      if h : x = y then .isTrue (by rw [h]) else .isFalse (by simp [h])
    | .error x, .error y =>
      if h : x = y then .isTrue (by rw [h]) else .isFalse (by simp [h])
    | .ok _, .error _ => .isFalse (by simp)
    | .error _, .ok _ => .isFalse (by simp)

structure OpOut (α : Type) where
  result : Except SvcError α
  state : SvcState
  remoteCalled : Bool
deriving DecidableEq, Repr

/-- `listProjects(overrideCookie?)`: guard on the effective cookie before
any remote call, then map the body through the project mapping. -/
def listProjects (s : SvcState) (overrideCookie : Option String)
    (r : RemoteReply ProjectsPayload) : OpOut (List IconfontProject) :=
  let cookie := getEffectiveCookie s overrideCookie
  if cookie = "" then
    { result := .error (.authenticationRequired "Authentication required. Please provide Iconfont cookie.")
      state := s, remoteCalled := false }
  else
    match r with
    | .failure e => { result := .error (listProjectsCatch e), state := s, remoteCalled := true }
    | .success none => { result := .ok [], state := s, remoteCalled := true }
    | .success (some p) =>
      { result := .ok (((p.ownProjects.getD []) ++ (p.corpProjects.getD [])).map
          (fun pr => { id := jsOrO pr.id "", name := jsOrO pr.name ""
                       icon_count := pr.icon_count.getD 0
                       updated_at := jsOrO pr.updated_at "" }))
        state := s, remoteCalled := true }

/-- `getProjectIcons`: guard on the stored cookie (no override accepted),
then map the body; failures are wrapped generically. -/
def getProjectIcons (s : SvcState) (page pageSize : Nat)
    (r : RemoteReply SearchPayload) : OpOut IconfontSearchResult :=
  if s.cookie = "" then
    { result := .error (.authenticationRequired "Authentication required. Please provide Iconfont cookie.")
      state := s, remoteCalled := false }
  else
    match r with
    | .failure e => { result := .error (getProjectIconsCatch e), state := s, remoteCalled := true }
    | .success none =>
      { result := .ok { total := 0, page := page, page_size := pageSize, icons := [] }
        state := s, remoteCalled := true }
    | .success (some p) =>
      { result := .ok { total := p.total.getD 0, page := page, page_size := pageSize
                        icons := (p.icons.getD []).map iconOf }
        state := s, remoteCalled := true }

/-- The fixed cache max-age constant: five minutes in milliseconds. -/
def cacheMaxAge : Nat := 5 * 60 * 1000

/-- Result-record construction of `getProjectDetail` from the raw body. -/
def detailOf (p : RawDetailProject) (creatorUsername : Option String) :
    IconfontProjectDetail :=
  { id := jsOrO p.id "", name := jsOrO p.name ""
    icon_count := p.icon_count.getD 0
    font_family := jsOrO p.font_family ""
    created_at := jsOrO p.created_at ""
    updated_at := jsOrO p.updated_at ""
    username := jsOrO creatorUsername "" }

/-- The remote-refresh tail of `getProjectDetail`: issue the call, reject
bodies missing `data.data.project` (that thrown error is itself re-wrapped
by the catch block), and on success write the fresh entry (capture time
`now`) into the cache. -/
def getProjectDetailRemote (s : SvcState) (projectId : String) (now : Nat)
    (r : RemoteReply DetailPayload) : OpOut IconfontProjectDetail :=
  match r with
  | .failure e =>
    { result := .error (getProjectDetailCatch e), state := s, remoteCalled := true }
  | .success none =>
    { result := .error (.failed ("Failed to get project detail: " ++
        "Failed to get project detail: invalid response"))
      state := s, remoteCalled := true }
  | .success (some d) =>
    match d.project with
    | none =>
      { result := .error (.failed ("Failed to get project detail: " ++
          "Failed to get project detail: invalid response"))
        state := s, remoteCalled := true }
    | some p =>
      let result := detailOf p d.creatorUsername
      let cache' := mapSet s.projectDetailCache projectId
        { data := result, timestamp := now, updatedAt := result.updated_at }
      { result := .ok result
        state := { s with projectDetailCache := cache' }
        remoteCalled := true }

/-- `getProjectDetail(projectId, overrideCookie?, forceRefresh)`: guard on
the effective cookie, serve a fresh cache entry when no refresh is forced,
otherwise fall through to the remote refresh. -/
def getProjectDetail (s : SvcState) (projectId : String)
    (overrideCookie : Option String) (forceRefresh : Bool) (now : Nat)
    (r : RemoteReply DetailPayload) : OpOut IconfontProjectDetail :=
  let cookie := getEffectiveCookie s overrideCookie
  if cookie = "" then
    { result := .error (.authenticationRequired "Authentication required. Please provide Iconfont cookie.")
      state := s, remoteCalled := false }
  else
    match mapGet s.projectDetailCache projectId with
    | some cached =>
      if (!forceRefresh) && decide ((now : Int) - (cached.timestamp : Int) < (cacheMaxAge : Int)) then
        { result := .ok cached.data, state := s, remoteCalled := false }
      else getProjectDetailRemote s projectId now r
    | none => getProjectDetailRemote s projectId now r

/-- `clearCache`. -/
def clearCache (s : SvcState) : SvcState := { s with projectDetailCache := [] }

/-- `searchProjectIcons(projectId, keyword, overrideCookie?, page)`: guard
on the effective cookie, then map the body (page size fixed at 54). -/
def searchProjectIcons (s : SvcState) (overrideCookie : Option String)
    (page : Nat) (r : RemoteReply SearchPayload) : OpOut IconfontSearchResult :=
  let cookie := getEffectiveCookie s overrideCookie
  if cookie = "" then
    { result := .error (.authenticationRequired "Authentication required. Please provide Iconfont cookie.")
      state := s, remoteCalled := false }
  else
    match r with
    | .failure e => { result := .error (searchProjectIconsCatch e), state := s, remoteCalled := true }
    | .success none =>
      { result := .ok { total := 0, page := page, page_size := 54, icons := [] }
        state := s, remoteCalled := true }
    | .success (some p) =>
      { result := .ok { total := p.total.getD 0, page := page, page_size := 54
                        icons := (p.icons.getD []).map iconOf }
        state := s, remoteCalled := true }

/-! ## Login service (browser auto-login) -/

/-- Characters the JS `trim` removes (the whitespace class relevant here). -/
def isJsWhitespace (c : Char) : Bool :=
  c = ' ' || c = '\t' || c = '\n' || c = '\r' || c = '\x0b' || c = '\x0c'

/-- JS `String.prototype.trim` on the character-list view of a string. -/
def trimJs (l : List Char) : List Char :=
  ((l.dropWhile isJsWhitespace).reverse.dropWhile isJsWhitespace).reverse

/-- JS `String.prototype.split` with a one-character separator. -/
def splitOnChar (sep : Char) : List Char → List (List Char)
  | [] => [[]]
  | x :: xs =>
    if x = sep then [] :: splitOnChar sep xs
    else
      match splitOnChar sep xs with
      | [] => [[x]]
      | s :: ss => (x :: s) :: ss

/-- JS `String.prototype.replace` with a plain-string pattern: replace only
the first occurrence (here with the empty replacement). -/
def replaceFirstL (pat : List Char) : List Char → List Char
  | [] => []
  | x :: xs =>
    if pat.isPrefixOf (x :: xs) then (x :: xs).drop pat.length
    else x :: replaceFirstL pat xs

/-- JS `Array.prototype.join(",")`. -/
def joinComma : List (List Char) → List Char
  | [] => []
  | [l] => l
  | l :: ls => l ++ [','] ++ joinComma ls

/-- The session-cookie name followed by the equals sign, as scanned for by
the fallback extraction. -/
def eggSessEq : List Char := "EGG_SESS_ICONFONT=".toList

/-- The fallback cookie extraction applied to the folded set-cookie header
string: split on commas, find the first entry whose trimmed form starts
with the session-cookie name, then take that entry up to the first
semicolon and delete the first occurrence of the name prefix. -/
def extractEggSess (cookieStr : List Char) : Option (List Char) :=
  match (splitOnChar ',' cookieStr).find? (fun c => eggSessEq.isPrefixOf (trimJs c)) with
  | none => none
  | some seg => some (replaceFirstL eggSessEq ((splitOnChar ';' seg).headD []))

/-- The `set-cookie` response header as delivered by the HTTP collaborator:
either a single string or an array of strings. -/
inductive HeaderVal where
  | one (s : List Char)
  | many (l : List (List Char))
deriving DecidableEq, Repr

/-- The string the fallback loop scans: array headers are joined with
commas, a single header is used as-is. -/
def headerString : HeaderVal → List Char
  | .one s => s
  | .many l => joinComma l

/-- Cookie extracted from one probe response's optional set-cookie header. -/
def probeCookie (setCookie : Option HeaderVal) : Option (List Char) :=
  match setCookie with
  | none => none
  | some hv => extractEggSess (headerString hv)

/-- Handles held by the `IconfontLoginService` instance: whether the
puppeteer browser and page references are non-null. -/
structure LoginState where
  browser : Bool
  page : Bool
deriving DecidableEq, Repr

/-- `close()`: closes the browser if one is held, nulling both handles.
The second component counts actual browser closes performed (0 or 1). -/
def closeLogin (s : LoginState) : LoginState × Nat :=
  if s.browser then ({ browser := false, page := false }, 1) else (s, 0)

/-- `isRunning()`. -/
def isRunning (s : LoginState) : Bool := s.browser

/-- One iteration of the scriptable-path cookie-jar poll: its duration and
what `page.cookies()` produced — the session cookie's value when present
in the jar, or a thrown error. -/
inductive PollOutcome where
  | cookieJar (egg : Option String)
  | threw (msg : String)
deriving DecidableEq, Repr

structure Poll where
  dur : Nat
  outcome : PollOutcome
deriving DecidableEq, Repr

/-- One iteration of the fallback probe: its duration and either the
response's optional set-cookie header or a thrown (swallowed) error. -/
inductive ProbeOutcome where
  | response (setCookie : Option HeaderVal)
  | threw (msg : String)
deriving DecidableEq, Repr

structure Probe where
  dur : Nat
  outcome : ProbeOutcome
deriving DecidableEq, Repr

/-- Terminal outcome of the scriptable polling loop: the found cookie value
and finish time, the timeout check time, or a propagated poll exception. -/
inductive ScriptOut where
  | found (v : String) (t : Nat)
  | timedOut (t : Nat)
  | threw (msg : String) (t : Nat)
deriving DecidableEq, Repr

/-- The scriptable-path polling loop of `waitForLogin`: while the elapsed
time stays below the timeout, read the cookie jar (a throw propagates),
return a truthy session-cookie value, otherwise sleep 3000 ms and retry. -/
def scriptPoll (polls : Nat → Poll) (startTime timeout : Nat) (i t : Nat) : ScriptOut :=
  if h : t - startTime < timeout then
    match (polls i).outcome with
    | .threw m => .threw m (t + (polls i).dur)
    | .cookieJar (some v) =>
      if v = "" then scriptPoll polls startTime timeout (i + 1) (t + (polls i).dur + 3000)
      else .found v (t + (polls i).dur)
    | .cookieJar none => scriptPoll polls startTime timeout (i + 1) (t + (polls i).dur + 3000)
  else .timedOut t
termination_by startTime + timeout - t
decreasing_by
  all_goals omega

/-- Terminal outcome of the fallback polling loop. -/
inductive FallbackOut where
  | found (v : List Char) (t : Nat)
  | timedOut (t : Nat)
deriving DecidableEq, Repr

/-- The fallback polling loop of `waitForCookieFromApiWithPrompt`: while the
elapsed time stays below the timeout, issue the probe (errors are swallowed),
return an extracted cookie value, otherwise sleep 3000 ms and retry. -/
def fallbackPoll (probes : Nat → Probe) (startTime timeout : Nat) (i t : Nat) : FallbackOut :=
  if h : t - startTime < timeout then
    match (probes i).outcome with
    | .threw _ => fallbackPoll probes startTime timeout (i + 1) (t + (probes i).dur + 3000)
    | .response sc =>
      match probeCookie sc with
      | some v => .found v (t + (probes i).dur)
      | none => fallbackPoll probes startTime timeout (i + 1) (t + (probes i).dur + 3000)
  else .timedOut t
termination_by startTime + timeout - t
decreasing_by
  all_goals omega

/-- Fulfilment value or rejection of `waitForLogin`: the promise value has
TypeScript type string-or-null, modelled as an optional string; the
timeout throw is the distinguished login-timed-out rejection. -/
inductive WaitResult where
  | ok (cookie : Option String)
  | loginTimedOut
  | threw (msg : String)
deriving DecidableEq, Repr

/-- Outcome of a `waitForLogin` call: its result, finish time, the login
handles afterwards, and the number of actual browser closes it performed. -/
structure WaitOut where
  result : WaitResult
  time : Nat
  state : LoginState
  closes : Nat
deriving DecidableEq, Repr

/-- `waitForLogin(timeout)`: with no page handle, delegate to the fallback
probe loop after its fixed 5000 ms grace sleep (the browser handle is never
touched there); on the scriptable path, close before returning the found
value and before throwing the timeout, while a poll exception propagates
without closing. -/
def waitForLogin (s : LoginState) (polls : Nat → Poll) (probes : Nat → Probe)
    (t0 timeout : Nat) : WaitOut :=
  if s.page = false then
    match fallbackPoll probes (t0 + 5000) timeout 0 (t0 + 5000) with
    | .found v t => { result := .ok (some (String.mk v)), time := t, state := s, closes := 0 }
    | .timedOut t => { result := .loginTimedOut, time := t, state := s, closes := 0 }
  else
    match scriptPoll polls t0 timeout 0 t0 with
    | .found v t =>
      { result := .ok (some v), time := t, state := (closeLogin s).1, closes := (closeLogin s).2 }
    | .timedOut t =>
      { result := .loginTimedOut, time := t, state := (closeLogin s).1, closes := (closeLogin s).2 }
    | .threw m t => { result := .threw m, time := t, state := s, closes := 0 }

/-- How the `startLogin` launch sequence resolved: whether the puppeteer
launch, the page creation/navigation, and (on the fallback) the system
browser open each succeeded. -/
inductive LaunchOutcome where
  | launched
  | gotoFailedSystemOk
  | gotoFailedSystemFail
  | newPageFailedSystemOk
  | newPageFailedSystemFail
  | launchFailedSystemOk
  | launchFailedSystemFail
deriving DecidableEq, Repr

/-- Message thrown when the system browser open also fails. -/
def openFailMsg : String :=
  "Failed to open browser. Please open https://www.iconfont.cn/ manually and log in."

/-- `startLogin()`: the thrown error (if any) and the handle state left
behind.  A puppeteer failure after the launch succeeded leaves the browser
handle set while falling back to the system open. -/
def startLogin : LaunchOutcome → Option String × LoginState
  | .launched => (none, { browser := true, page := true })
  | .gotoFailedSystemOk => (none, { browser := true, page := true })
  | .gotoFailedSystemFail => (some openFailMsg, { browser := true, page := true })
  | .newPageFailedSystemOk => (none, { browser := true, page := false })
  | .newPageFailedSystemFail => (some openFailMsg, { browser := true, page := false })
  | .launchFailedSystemOk => (none, { browser := false, page := false })
  | .launchFailedSystemFail => (some openFailMsg, { browser := false, page := false })

/-- What the auto-login tool handler replies with: the success content, the
non-error timeout-message content (the falsy-cookie branch), or an error
content. -/
inductive AttemptResult where
  | loggedIn
  | timeoutMessage
  | errorMessage (msg : String)
deriving DecidableEq, Repr

/-- Outcome of one full auto-login attempt at the tool handler. -/
structure AttemptOut where
  result : AttemptResult
  login : LoginState
  closes : Nat
  svc : SvcState
deriving DecidableEq, Repr

/-- The `iconfont_auto_login` tool handler: start the login flow, wait up
to 120000 ms, store a truthy cookie into the service on success, reply
with the timeout message on a falsy cookie, and on any rejection close the
login service before replying with an error. -/
def autoLoginAttempt (svc : SvcState) (lo : LaunchOutcome) (polls : Nat → Poll)
    (probes : Nat → Probe) (t0 : Nat) : AttemptOut :=
  match startLogin lo with
  | (some err, ls) =>
    { result := .errorMessage ("Error: " ++ err), login := (closeLogin ls).1
      closes := (closeLogin ls).2, svc := svc }
  | (none, ls) =>
    let w := waitForLogin ls polls probes t0 120000
    match w.result with
    | .ok (some cookie) =>
      if cookie = "" then
        { result := .timeoutMessage, login := w.state, closes := w.closes, svc := svc }
      else
        { result := .loggedIn, login := w.state, closes := w.closes
          svc := setCookie svc cookie }
    | .ok none => { result := .timeoutMessage, login := w.state, closes := w.closes, svc := svc }
    | .loginTimedOut =>
      { result := .errorMessage "Error: Login timeout. Please try again."
        login := (closeLogin w.state).1, closes := w.closes + (closeLogin w.state).2, svc := svc }
    | .threw m =>
      { result := .errorMessage ("Error: " ++ m)
        login := (closeLogin w.state).1, closes := w.closes + (closeLogin w.state).2, svc := svc }

/-! ## Helper lemmas -/

/-- The remote-refresh tail always reports that the remote call was made. -/
theorem getProjectDetailRemote_called (s : SvcState) (pid : String) (now : Nat)
    (r : RemoteReply DetailPayload) :
    (getProjectDetailRemote s pid now r).remoteCalled = true := by
  rcases r with ⟨_ | d⟩ | e
  · simp [getProjectDetailRemote]
  · rcases hd : d.project with _ | p <;> simp [getProjectDetailRemote, hd]
  · simp [getProjectDetailRemote]

/-- Whether a detail refresh reply represents a failed refresh: a thrown
failure, an absent body, or a body without the project object. -/
def detailRemoteFails : RemoteReply DetailPayload → Bool
  | .failure _ => true
  | .success none => true
  | .success (some d) => d.project.isNone

/-- A failed remote refresh leaves the instance state untouched and
produces an error. -/
theorem getProjectDetailRemote_fail (s : SvcState) (pid : String) (now : Nat)
    (r : RemoteReply DetailPayload) (hf : detailRemoteFails r = true) :
    (getProjectDetailRemote s pid now r).state = s ∧
    ∃ e, (getProjectDetailRemote s pid now r).result = Except.error e := by
  rcases r with ⟨_ | d⟩ | e
  · simp [getProjectDetailRemote]
  · rcases hd : d.project with _ | p
    · simp [getProjectDetailRemote, hd]
    · exfalso
      simp [detailRemoteFails, hd] at hf
  · simp [getProjectDetailRemote]

/-- A successful, well-shaped refresh reply produces the mapped detail and
replaces the cache entry with capture time now. -/
theorem getProjectDetailRemote_success (s : SvcState) (pid : String) (now : Nat)
    (d : DetailPayload) (p : RawDetailProject) (hp : d.project = some p) :
    (getProjectDetailRemote s pid now (.success (some d))).result =
      .ok (detailOf p d.creatorUsername) ∧
    (getProjectDetailRemote s pid now (.success (some d))).state.projectDetailCache =
      mapSet s.projectDetailCache pid
        { data := detailOf p d.creatorUsername, timestamp := now
          updatedAt := (detailOf p d.creatorUsername).updated_at } := by
  simp [getProjectDetailRemote, hp]

/-! ## Claims -/

/-- C2: for the operations accepting a per-call override cookie
(listProjects, getProjectDetail, searchProjectIcons — each resolves its
credential through this function), the effective cookie equals the
override whenever one is supplied and non-empty, and equals the stored
cookie when the override is absent or empty. -/
theorem effectiveCookie_override_precedence (s : SvcState) (v : String) (hv : v ≠ "") :
    getEffectiveCookie s (some v) = v ∧
    getEffectiveCookie s none = s.cookie ∧
    getEffectiveCookie s (some "") = s.cookie := by
  refine ⟨?_, ?_, ?_⟩ <;> simp [getEffectiveCookie, jsOrS, hv]

theorem effectiveCookie_override_precedence_witness :
    getEffectiveCookie (mkService (some "stored") none) (some "ovr") = "ovr" :=
  (effectiveCookie_override_precedence (mkService (some "stored") none) "ovr"
    (by decide)).1

/-- C3 counterexample: `setCookie` with the empty string (reachable from
the login tool, whose schema accepts any string) sets the logged-in flag
while leaving the cookie empty, so the status reports loggedIn without
hasCookie. -/
theorem setCookie_empty_breaks_invariant :
    (setCookie (mkService none none) "").loggedIn = true ∧
    (setCookie (mkService none none) "").cookie = "" ∧
    (getLoginStatus (setCookie (mkService none none) "")).loggedIn = true ∧
    (getLoginStatus (setCookie (mkService none none) "")).hasCookie = false := by
  refine ⟨rfl, rfl, rfl, by decide⟩

/-- Service states reachable through the session interface when every
`setCookie` argument is non-empty: construction with optional seed and
environment cookies, `setCookie` with a non-empty string (the explicit
login tool with a non-empty cookie, and the auto-login completion, which
only stores truthy cookies), and detail-cache-only updates. -/
inductive SessionReachable : SvcState → Prop where
  | construct (c e : Option String) : SessionReachable (mkService c e)
  | login (s : SvcState) (c : String) (hs : SessionReachable s) (hc : c ≠ "") :
      SessionReachable (setCookie s c)
  | cacheOnly (s : SvcState) (cache : List (String × CacheEntry IconfontProjectDetail))
      (hs : SessionReachable s) :
      SessionReachable { s with projectDetailCache := cache }

/-- C3 amended: after every sequence of session operations in which each
stored cookie is non-empty (construction, non-empty `setCookie`, auto-login
completion), the logged-in flag is true iff the stored cookie is non-empty,
and the status never reports the two fields differently. -/
theorem loggedIn_iff_cookie_nonempty (s : SvcState) (hs : SessionReachable s) :
    (getLoginStatus s).loggedIn = (getLoginStatus s).hasCookie ∧
    (s.loggedIn = true ↔ s.cookie ≠ "") := by
  induction hs with
  | construct c e =>
    refine ⟨rfl, ?_⟩
    simp [mkService, getLoginStatus]
  | login s c hs hc ih =>
    refine ⟨?_, ?_⟩ <;> simp [setCookie, getLoginStatus, hc]
  | cacheOnly s cache hs ih =>
    exact ih

theorem loggedIn_iff_cookie_nonempty_witness :
    (getLoginStatus (mkService (some "abc") none)).loggedIn =
      (getLoginStatus (mkService (some "abc") none)).hasCookie :=
  (loggedIn_iff_cookie_nonempty (mkService (some "abc") none)
    (SessionReachable.construct (some "abc") none)).1

/-- C6: `listProjects` with an empty stored cookie and no non-empty
override fails with the authentication-required error, makes no remote
call, and leaves the state untouched. -/
theorem listProjects_requires_auth (s : SvcState) (o : Option String)
    (r : RemoteReply ProjectsPayload)
    (hs : s.cookie = "") (ho : o = none ∨ o = some "") :
    (listProjects s o r).result =
      .error (.authenticationRequired "Authentication required. Please provide Iconfont cookie.") ∧
    (listProjects s o r).state = s ∧
    (listProjects s o r).remoteCalled = false := by
  have hc : getEffectiveCookie s o = "" := by
    rcases ho with h | h <;> simp [h, getEffectiveCookie, jsOrS, hs]
  simp [listProjects, hc]

theorem listProjects_requires_auth_witness :
    (listProjects (mkService none none) none (.success none)).remoteCalled = false :=
  (listProjects_requires_auth (mkService none none) none (.success none)
    (by decide) (Or.inl rfl)).2.2

/-- C1: with a non-empty effective cookie, `getProjectDetail` serves a
cached entry younger than 300000 ms without a remote call when no refresh
is forced; in every other case (forced refresh, cache miss, stale entry)
it issues the remote call, and on a well-shaped success replaces the cache
entry for the project with the fresh result captured at now. -/
theorem getProjectDetail_cache_policy (s : SvcState) (pid : String)
    (o : Option String) (force : Bool) (now : Nat) (r : RemoteReply DetailPayload)
    (hc : getEffectiveCookie s o ≠ "") :
    (∀ e, mapGet s.projectDetailCache pid = some e → force = false →
      (now : Int) - (e.timestamp : Int) < (cacheMaxAge : Int) →
      (getProjectDetail s pid o force now r).result = .ok e.data ∧
      (getProjectDetail s pid o force now r).remoteCalled = false ∧
      (getProjectDetail s pid o force now r).state = s) ∧
    ((force = true ∨ ∀ e, mapGet s.projectDetailCache pid = some e →
        (cacheMaxAge : Int) ≤ (now : Int) - (e.timestamp : Int)) →
      (getProjectDetail s pid o force now r).remoteCalled = true ∧
      ∀ d p, r = .success (some d) → d.project = some p →
        (getProjectDetail s pid o force now r).result = .ok (detailOf p d.creatorUsername) ∧
        (getProjectDetail s pid o force now r).state.projectDetailCache =
          mapSet s.projectDetailCache pid
            { data := detailOf p d.creatorUsername, timestamp := now
              updatedAt := (detailOf p d.creatorUsername).updated_at }) := by
  constructor
  · intro e he hf hfresh
    refine ⟨?_, ?_, ?_⟩ <;> simp [getProjectDetail, hc, he, hf, hfresh]
  · intro hmiss
    have hremote : getProjectDetail s pid o force now r = getProjectDetailRemote s pid now r := by
      rcases hcache : mapGet s.projectDetailCache pid with _ | e
      · simp [getProjectDetail, hc, hcache]
      · rcases hmiss with hforce | hstale
        · simp [getProjectDetail, hc, hcache, hforce]
        · have := hstale e hcache
          simp [getProjectDetail, hc, hcache, not_lt.mpr this]
    rw [hremote]
    refine ⟨getProjectDetailRemote_called s pid now r, ?_⟩
    intro d p hr hp
    subst hr
    exact getProjectDetailRemote_success s pid now d p hp

theorem getProjectDetail_cache_policy_witness :
    (getProjectDetail
      { cookie := "tok", loggedIn := true
        projectDetailCache := [("42",
          { data := { id := "42", name := "demo", icon_count := 3, font_family := "f"
                      created_at := "c", updated_at := "u", username := "" }
            timestamp := 0, updatedAt := "u" })] }
      "42" none false 120000 (.success none)).result =
      .ok { id := "42", name := "demo", icon_count := 3, font_family := "f"
            created_at := "c", updated_at := "u", username := "" } := by
  have h := (getProjectDetail_cache_policy
    { cookie := "tok", loggedIn := true
      projectDetailCache := [("42",
        { data := { id := "42", name := "demo", icon_count := 3, font_family := "f"
                    created_at := "c", updated_at := "u", username := "" }
          timestamp := 0, updatedAt := "u" })] }
    "42" none false 120000 (.success none) (by decide)).1
  have h2 := h { data := { id := "42", name := "demo", icon_count := 3, font_family := "f"
                           created_at := "c", updated_at := "u", username := "" }
                 timestamp := 0, updatedAt := "u" } (by decide) rfl (by decide)
  exact h2.1

/-- C4: whenever the remote refresh of `getProjectDetail` fails (thrown
failure, absent body, or missing project object), the call leaves the
cache and the whole instance state exactly as before, and, if the remote
call was made, surfaces an error. -/
theorem getProjectDetail_failed_refresh_preserves_cache (s : SvcState) (pid : String)
    (o : Option String) (force : Bool) (now : Nat) (r : RemoteReply DetailPayload)
    (hf : detailRemoteFails r = true) :
    (getProjectDetail s pid o force now r).state = s ∧
    ((getProjectDetail s pid o force now r).remoteCalled = true →
      ∃ e, (getProjectDetail s pid o force now r).result = Except.error e) := by
  by_cases hc : getEffectiveCookie s o = ""
  · constructor <;> simp [getProjectDetail, hc]
  · rcases hcache : mapGet s.projectDetailCache pid with _ | e
    · have hremote : getProjectDetail s pid o force now r = getProjectDetailRemote s pid now r := by
        simp [getProjectDetail, hc, hcache]
      rw [hremote]
      have := getProjectDetailRemote_fail s pid now r hf
      exact ⟨this.1, fun _ => this.2⟩
    · by_cases hserve :
        ((!force) && decide ((now : Int) - (e.timestamp : Int) < (cacheMaxAge : Int))) = true
      · constructor <;> simp [getProjectDetail, hc, hcache, hserve]
      · have hremote : getProjectDetail s pid o force now r = getProjectDetailRemote s pid now r := by
          simp only [getProjectDetail, hcache]
          rw [if_neg hc, if_neg (by simpa using hserve)]
        rw [hremote]
        have := getProjectDetailRemote_fail s pid now r hf
        exact ⟨this.1, fun _ => this.2⟩

theorem getProjectDetail_failed_refresh_preserves_cache_witness :
    (getProjectDetail (mkService (some "tok") none) "42" none true 0
      (.failure (.httpStatus 500 "boom"))).state = mkService (some "tok") none :=
  (getProjectDetail_failed_refresh_preserves_cache (mkService (some "tok") none)
    "42" none true 0 (.failure (.httpStatus 500 "boom")) (by decide)).1

/-- Whether an operation result failed with the authentication-failed kind. -/
def resultAuthFailedKind {α : Type} (r : Except SvcError α) : Bool :=
  match r with
  | .error e => e.isAuthFailedKind
  | .ok _ => false

/-- C5 counterexample: a remote HTTP 401 on `getIconDetail` is wrapped
generically — the operation does not fail with the authentication-failed
kind. -/
theorem getIconDetail_401_not_auth_kind :
    getIconDetail (.failure (.httpStatus 401 "Request failed with status code 401")) =
      Except.error (.failed "Failed to get icon details: Request failed with status code 401") ∧
    resultAuthFailedKind
      (getIconDetail (.failure (.httpStatus 401 "Request failed with status code 401"))) = false := by
  exact ⟨rfl, rfl⟩

/-- C5 amended: per-operation failure translation — `searchIcons`,
`listProjects`, `getProjectDetail` and `searchProjectIcons` translate
HTTP 401/403 to the authentication-failed kind, and `searchIcons` alone
translates a connection abort to the request-timed-out kind;
`listProjects`, `getProjectDetail` and `searchProjectIcons` wrap aborts
generically, and `getIconDetail` and `getProjectIcons` wrap every failure
generically, including 401/403. -/
theorem failure_translation_per_operation (c : Nat) (m : String)
    (hc : c = 401 ∨ c = 403) :
    searchIconsCatch (.httpStatus c m) =
      .authenticationFailed "Authentication failed. Please provide a valid Iconfont cookie." ∧
    listProjectsCatch (.httpStatus c m) =
      .authenticationFailed "Authentication failed. Please check your Iconfont cookie." ∧
    getProjectDetailCatch (.httpStatus c m) =
      .authenticationFailed "Authentication failed. Please check your Iconfont cookie." ∧
    searchProjectIconsCatch (.httpStatus c m) =
      .authenticationFailed "Authentication failed. Please check your Iconfont cookie." ∧
    getIconDetailCatch (.httpStatus c m) = .failed ("Failed to get icon details: " ++ m) ∧
    getProjectIconsCatch (.httpStatus c m) = .failed ("Failed to get project icons: " ++ m) ∧
    searchIconsCatch (.connAborted m) = .requestTimedOut "Request timed out. Please try again." ∧
    listProjectsCatch (.connAborted m) = .failed ("Failed to list projects: " ++ m) ∧
    getProjectDetailCatch (.connAborted m) = .failed ("Failed to get project detail: " ++ m) ∧
    searchProjectIconsCatch (.connAborted m) = .failed ("Failed to search project icons: " ++ m) ∧
    getIconDetailCatch (.connAborted m) = .failed ("Failed to get icon details: " ++ m) ∧
    getProjectIconsCatch (.connAborted m) = .failed ("Failed to get project icons: " ++ m) := by
  rcases hc with h | h <;> subst h <;>
    simp [searchIconsCatch, listProjectsCatch, getProjectDetailCatch,
      searchProjectIconsCatch, getIconDetailCatch, getProjectIconsCatch,
      AxiosFailure.message]

theorem failure_translation_per_operation_witness :
    searchIconsCatch (.httpStatus 401 "m") =
      .authenticationFailed "Authentication failed. Please provide a valid Iconfont cookie." :=
  (failure_translation_per_operation 401 "m" (Or.inl rfl)).1

/-! ## Polling-loop lemmas -/

/-- Timeout bound of the fallback loop: started at a time within the bound
window, the timeout check that fails happens before start + timeout + one
maximal probe duration + one polling interval. -/
theorem fallbackPoll_timedOut_bound (probes : Nat → Probe) (startTime timeout D : Nat)
    (hD : ∀ j, (probes j).dur ≤ D) :
    ∀ i t, startTime ≤ t → t < startTime + timeout + D + 3000 →
      ∀ tf, fallbackPoll probes startTime timeout i t = .timedOut tf →
        tf < startTime + timeout + D + 3000 := by
  intro i t
  induction i, t using fallbackPoll.induct probes startTime timeout with
  | case1 i t hlt m hm ih =>
    intro h1 h2 tf heq
    rw [fallbackPoll] at heq
    simp [hlt, hm] at heq
    exact ih (by omega) (by have := hD i; omega) tf heq
  | case2 i t hlt sc hsc v hv =>
    intro h1 h2 tf heq
    rw [fallbackPoll] at heq
    simp [hlt, hsc, hv] at heq
  | case3 i t hlt sc hsc hv ih =>
    intro h1 h2 tf heq
    rw [fallbackPoll] at heq
    simp [hlt, hsc, hv] at heq
    exact ih (by omega) (by have := hD i; omega) tf heq
  | case4 i t hlt =>
    intro h1 h2 tf heq
    rw [fallbackPoll] at heq
    simp [hlt] at heq
    omega

/-- Timeout bound of the scriptable loop, analogous to the fallback one. -/
theorem scriptPoll_timedOut_bound (polls : Nat → Poll) (startTime timeout D : Nat)
    (hD : ∀ j, (polls j).dur ≤ D) :
    ∀ i t, startTime ≤ t → t < startTime + timeout + D + 3000 →
      ∀ tf, scriptPoll polls startTime timeout i t = .timedOut tf →
        tf < startTime + timeout + D + 3000 := by
  intro i t
  induction i, t using scriptPoll.induct polls startTime timeout with
  | case1 i t hlt m hm =>
    intro h1 h2 tf heq
    rw [scriptPoll] at heq
    simp [hlt, hm] at heq
  | case2 i t hlt hm ih =>
    intro h1 h2 tf heq
    rw [scriptPoll] at heq
    simp [hlt, hm] at heq
    exact ih (by omega) (by have := hD i; omega) tf heq
  | case3 i t hlt v hv hve =>
    intro h1 h2 tf heq
    rw [scriptPoll] at heq
    simp [hlt, hv, hve] at heq
  | case4 i t hlt hm ih =>
    intro h1 h2 tf heq
    rw [scriptPoll] at heq
    simp [hlt, hm] at heq
    exact ih (by omega) (by have := hD i; omega) tf heq
  | case5 i t hlt =>
    intro h1 h2 tf heq
    rw [scriptPoll] at heq
    simp [hlt] at heq
    omega

/-- A value returned by the scriptable loop passed its truthiness check. -/
theorem scriptPoll_found_ne_empty (polls : Nat → Poll) (startTime timeout : Nat) :
    ∀ i t v tf, scriptPoll polls startTime timeout i t = .found v tf → v ≠ "" := by
  intro i t
  induction i, t using scriptPoll.induct polls startTime timeout with
  | case1 i t hlt m hm =>
    intro v tf heq
    rw [scriptPoll] at heq
    simp [hlt, hm] at heq
  | case2 i t hlt hm ih =>
    intro v tf heq
    rw [scriptPoll] at heq
    simp [hlt, hm] at heq
    exact ih v tf heq
  | case3 i t hlt v hv hve =>
    intro v' tf heq
    rw [scriptPoll] at heq
    simp [hlt, hv, hve] at heq
    rcases heq with ⟨h1, h2⟩
    rw [← h1]
    exact hve
  | case4 i t hlt hm ih =>
    intro v tf heq
    rw [scriptPoll] at heq
    simp [hlt, hm] at heq
    exact ih v tf heq
  | case5 i t hlt =>
    intro v tf heq
    rw [scriptPoll] at heq
    simp [hlt] at heq

/-- A jar poll that never sees the session cookie. -/
def idlePolls : Nat → Poll := fun _ => { dur := 0, outcome := .cookieJar none }

/-- A probe whose request always errors (swallowed by the loop). -/
def errorProbes : Nat → Probe := fun _ => { dur := 0, outcome := .threw "net" }

/-- A probe that immediately answers with a set-cookie header carrying a
session cookie value. -/
def leakProbes : Nat → Probe :=
  fun _ => { dur := 0
             outcome := .response (some (.one ("EGG_SESS_ICONFONT=abc; path=/".toList))) }

/-- A probe that answers with a session cookie whose value is empty. -/
def emptyValueProbes : Nat → Probe :=
  fun _ => { dur := 0
             outcome := .response (some (.one ("EGG_SESS_ICONFONT=; path=/".toList))) }

/-- A jar poll that immediately sees a non-empty session cookie. -/
def cookiePolls : Nat → Poll := fun _ => { dur := 0, outcome := .cookieJar (some "abc") }

/-- C7 (failing input): when the puppeteer launch succeeds but the page
creation fails, `startLogin` falls back to the system open leaving the
browser handle set and the page handle null; the subsequent fallback probe
path can then succeed, and the whole attempt terminates successfully with
zero browser closes and `isRunning` still true — the acquired browser
resource is leaked. -/
theorem autoLogin_partial_launch_leaks_browser :
    (autoLoginAttempt (mkService none none) .newPageFailedSystemOk idlePolls leakProbes 0).result
        = .loggedIn ∧
    (autoLoginAttempt (mkService none none) .newPageFailedSystemOk idlePolls leakProbes 0).closes
        = 0 ∧
    isRunning (autoLoginAttempt (mkService none none) .newPageFailedSystemOk idlePolls
        leakProbes 0).login = true := by
  have hl : fallbackPoll leakProbes (0 + 5000) 120000 0 (0 + 5000) =
      .found ("abc".toList) (0 + 5000 + 0) := by
    rw [fallbackPoll]
    simp [leakProbes]
    decide
  have hw : waitForLogin { browser := true, page := false } idlePolls leakProbes 0 120000 =
      { result := .ok (some "abc"), time := 0 + 5000 + 0
        state := { browser := true, page := false }, closes := 0 } := by
    rw [waitForLogin]
    simp [hl]
  simp [autoLoginAttempt, startLogin, hw, isRunning]

/-- C8 counterexample: on the fallback path the 5000 ms grace sleep alone
pushes the login-timed-out signal past the claimed bound of timeout plus
one polling interval — here with timeout 0 and instantaneous probes, the
timeout is signalled at 5000 ms although the claimed bound is 3000 ms. -/
theorem fallback_timeout_exceeds_claimed_bound :
    (waitForLogin { browser := false, page := false } idlePolls errorProbes 0 0).result
        = .loginTimedOut ∧
    (waitForLogin { browser := false, page := false } idlePolls errorProbes 0 0).time = 5000 ∧
    0 + 0 + 3000 <
      (waitForLogin { browser := false, page := false } idlePolls errorProbes 0 0).time := by
  have hl : fallbackPoll errorProbes (0 + 5000) 0 0 (0 + 5000) = .timedOut (0 + 5000) := by
    rw [fallbackPoll]
    simp
  rw [waitForLogin]
  simp [hl]

/-- C8 amended: with every single poll/probe duration bounded by D, the
login-timed-out signal of `waitForLogin` entered at time t0 with overall
timeout T arrives before t0 + T + D + 3000 on the scriptable path and
before t0 + 5000 + T + D + 3000 on the fallback path (the extra 5000 ms
being the fallback's fixed grace sleep). -/
theorem waitForLogin_timeout_bound (s : LoginState) (polls : Nat → Poll)
    (probes : Nat → Probe) (t0 T D : Nat)
    (hDp : ∀ j, (polls j).dur ≤ D) (hDq : ∀ j, (probes j).dur ≤ D)
    (ht : (waitForLogin s polls probes t0 T).result = .loginTimedOut) :
    (s.page = true → (waitForLogin s polls probes t0 T).time < t0 + T + D + 3000) ∧
    (s.page = false → (waitForLogin s polls probes t0 T).time < t0 + 5000 + T + D + 3000) := by
  cases hq : s.page with
  | false =>
    refine ⟨fun hpt => Bool.noConfusion hpt, fun _ => ?_⟩
    rcases hfb : fallbackPoll probes (t0 + 5000) T 0 (t0 + 5000) with ⟨v, t⟩ | ⟨t⟩
    · simp [waitForLogin, hq, hfb] at ht
    · have hb := fallbackPoll_timedOut_bound probes (t0 + 5000) T D hDq 0 (t0 + 5000)
        (le_refl _) (by omega) t hfb
      simp [waitForLogin, hq, hfb]
      omega
  | true =>
    refine ⟨fun _ => ?_, fun hpf => Bool.noConfusion hpf⟩
    rcases hsc : scriptPoll polls t0 T 0 t0 with ⟨v, t⟩ | ⟨t⟩ | ⟨m, t⟩
    · simp [waitForLogin, hq, hsc] at ht
    · have hb := scriptPoll_timedOut_bound polls t0 T D hDp 0 t0 (le_refl _) (by omega) t hsc
      simp [waitForLogin, hq, hsc]
      omega
    · simp [waitForLogin, hq, hsc] at ht

theorem waitForLogin_timeout_bound_witness :
    (waitForLogin { browser := false, page := false } idlePolls errorProbes 0 0).time <
      0 + 5000 + 0 + 0 + 3000 := by
  have hres : (waitForLogin { browser := false, page := false } idlePolls errorProbes 0 0).result
      = .loginTimedOut := by
    have hl : fallbackPoll errorProbes (0 + 5000) 0 0 (0 + 5000) = .timedOut (0 + 5000) := by
      rw [fallbackPoll]
      simp
    rw [waitForLogin]
    simp [hl]
  exact (waitForLogin_timeout_bound { browser := false, page := false } idlePolls errorProbes
    0 0 0 (fun j => le_refl 0) (fun j => le_refl 0) hres).2 rfl

/-- C10 counterexample: the fallback extraction can return the empty
string (a set-cookie header with an empty session-cookie value), so
`waitForLogin` fulfils with a string — not null and no timeout — yet the
handler's falsy-cookie branch fires and reports the timeout message as a
non-error result: that branch is reachable, contradicting the claim. -/
theorem empty_cookie_reaches_timeout_branch :
    (waitForLogin { browser := false, page := false } idlePolls emptyValueProbes 0 120000).result
        = .ok (some "") ∧
    (autoLoginAttempt (mkService none none) .launchFailedSystemOk idlePolls emptyValueProbes
        0).result = .timeoutMessage := by
  have hl : fallbackPoll emptyValueProbes (0 + 5000) 120000 0 (0 + 5000) =
      .found ("".toList) (0 + 5000 + 0) := by
    rw [fallbackPoll]
    simp [emptyValueProbes]
    decide
  have hw : waitForLogin { browser := false, page := false } idlePolls emptyValueProbes 0 120000 =
      { result := .ok (some ""), time := 0 + 5000 + 0
        state := { browser := false, page := false }, closes := 0 } := by
    rw [waitForLogin]
    simp [hl]
  constructor
  · rw [hw]
  · simp [autoLoginAttempt, startLogin, hw]

/-- C10 amended: `waitForLogin` never fulfils with null — every fulfilment
carries a string, which on the scriptable path is moreover non-empty; the
handler's falsy branch is thus unreachable through null, though it remains
reachable through an empty-string token on the fallback path. -/
theorem waitForLogin_never_null (s : LoginState) (polls : Nat → Poll)
    (probes : Nat → Probe) (t0 T : Nat) :
    (waitForLogin s polls probes t0 T).result ≠ .ok none ∧
    (∀ v, s.page = true → (waitForLogin s polls probes t0 T).result = .ok (some v) →
      v ≠ "") := by
  by_cases hp : s.page = false
  · rw [waitForLogin, if_pos hp]
    rcases hfb : fallbackPoll probes (t0 + 5000) T 0 (t0 + 5000) with ⟨v, t⟩ | ⟨t⟩
    · exact ⟨by simp, fun v' hpt => by rw [hpt] at hp; simp at hp⟩
    · exact ⟨by simp, fun v' hpt => by rw [hpt] at hp; simp at hp⟩
  · have hp' : ¬ (s.page = false) := hp
    rw [waitForLogin, if_neg hp']
    rcases hsc : scriptPoll polls t0 T 0 t0 with ⟨v, t⟩ | ⟨t⟩ | ⟨m, t⟩
    · refine ⟨by simp, fun v' _ hv' => ?_⟩
      simp at hv'
      rw [← hv']
      exact scriptPoll_found_ne_empty polls t0 T 0 t0 v t hsc
    · exact ⟨by simp, fun v' _ hv' => by simp at hv'⟩
    · exact ⟨by simp, fun v' _ hv' => by simp at hv'⟩

theorem waitForLogin_never_null_witness :
    (waitForLogin { browser := true, page := true } cookiePolls errorProbes 0 120000).result
        ≠ .ok none ∧ ("abc" : String) ≠ "" := by
  have h := waitForLogin_never_null { browser := true, page := true } cookiePolls errorProbes
    0 120000
  refine ⟨h.1, h.2 "abc" rfl ?_⟩
  have hsc : scriptPoll cookiePolls 0 120000 0 0 = .found "abc" (0 + 0) := by
    rw [scriptPoll]
    simp [cookiePolls]
  rw [waitForLogin]
  simp [hsc, closeLogin]

theorem splitOnChar_ne_nil (sep : Char) (l : List Char) : splitOnChar sep l ≠ [] := by
  induction l with
  | nil => simp [splitOnChar]
  | cons x xs ih =>
    rw [splitOnChar]
    by_cases h : x = sep
    · simp [h]
    · rcases hs : splitOnChar sep xs with _ | ⟨s, ss⟩
      · simp [h, hs]
      · simp [h, hs]

theorem splitOnChar_append_sep (sep : Char) (a b : List Char) :
    splitOnChar sep (a ++ sep :: b) = splitOnChar sep a ++ splitOnChar sep b := by
  induction a with
  | nil => simp [splitOnChar]
  | cons x xs ih =>
    by_cases h : x = sep
    · simp only [List.cons_append]
      conv_lhs => rw [splitOnChar]
      conv_rhs => rw [splitOnChar]
      simp [h, ih]
    · simp only [List.cons_append]
      conv_lhs => rw [splitOnChar]
      conv_rhs => rw [splitOnChar]
      rcases hs : splitOnChar sep xs with _ | ⟨s, ss⟩
      · exact absurd hs (splitOnChar_ne_nil sep xs)
      · simp [h, ih, hs]

theorem splitOnChar_append_no_sep (sep : Char) (a b : List Char) (h : sep ∉ a) :
    splitOnChar sep (a ++ b) =
      (a ++ (splitOnChar sep b).headD []) :: (splitOnChar sep b).tail := by
  induction a with
  | nil =>
    simp only [List.nil_append]
    rcases hs : splitOnChar sep b with _ | ⟨s, ss⟩
    · exact absurd hs (splitOnChar_ne_nil sep b)
    · simp [hs]
  | cons x xs ih =>
    have hx : x ≠ sep := fun he => h (by rw [he]; exact List.mem_cons_self _ _)
    have hxs : sep ∉ xs := fun hm => h (List.mem_cons_of_mem _ hm)
    simp only [List.cons_append]
    rw [splitOnChar]
    rw [ih hxs]
    simp [hx]

theorem dropWhile_append_all {p : Char → Bool} (a b : List Char)
    (h : ∀ c ∈ a, p c = true) : (a ++ b).dropWhile p = b.dropWhile p := by
  induction a with
  | nil => simp
  | cons x xs ih =>
    simp only [List.cons_append, List.dropWhile_cons]
    rw [h x (by simp)]
    exact ih (fun c hc => h c (by simp [hc]))

theorem egg_isPrefixOf_trimJs (ws rest : List Char)
    (hws : ∀ c ∈ ws, isJsWhitespace c = true) :
    eggSessEq.isPrefixOf (trimJs (ws ++ (eggSessEq ++ rest))) = true := by
  rw [trimJs]
  have h1 : (ws ++ (eggSessEq ++ rest)).dropWhile isJsWhitespace = eggSessEq ++ rest := by
    rw [dropWhile_append_all ws _ hws]
    rw [show eggSessEq = 'E' :: "GG_SESS_ICONFONT=".toList from by decide]
    simp only [List.cons_append, List.dropWhile_cons]
    rw [show isJsWhitespace 'E' = false from by decide]
    simp
  rw [h1]
  rw [List.reverse_append]
  rw [List.dropWhile_append]
  by_cases he : (rest.reverse.dropWhile isJsWhitespace).isEmpty = true
  · rw [if_pos he]
    rw [show eggSessEq.reverse.dropWhile isJsWhitespace = eggSessEq.reverse from by decide]
    rw [List.reverse_reverse]
    decide
  · rw [if_neg he]
    rw [List.reverse_append, List.reverse_reverse]
    rw [List.isPrefixOf_iff_prefix]
    exact List.prefix_append _ _

theorem ws_ne_comma {c : Char} (h : isJsWhitespace c = true) : c ≠ ',' := by
  intro he
  rw [he] at h
  exact absurd h (by decide)

theorem ws_ne_semi {c : Char} (h : isJsWhitespace c = true) : c ≠ ';' := by
  intro he
  rw [he] at h
  exact absurd h (by decide)

theorem egg_not_prefix_of_ws_cons (c : Char) (l : List Char)
    (h : isJsWhitespace c = true) :
    eggSessEq.isPrefixOf (c :: l) = false := by
  simp [isJsWhitespace] at h
  have hc : ('E' == c) = false := by
    rcases h with ((((h | h) | h) | h) | h) | h <;> subst h <;> decide
  rw [show eggSessEq = 'E' :: "GG_SESS_ICONFONT=".toList from by decide]
  simp [List.isPrefixOf, hc]

theorem replaceFirstL_of_isPrefixOf (pat l : List Char) (hne : pat ≠ [])
    (hp : pat.isPrefixOf l = true) :
    replaceFirstL pat l = l.drop pat.length := by
  cases l with
  | nil =>
    cases pat with
    | nil => exact absurd rfl hne
    | cons a as => simp [List.isPrefixOf] at hp
  | cons x xs => rw [replaceFirstL, if_pos hp]

theorem replaceFirstL_cons_of_neg (pat : List Char) (x : Char) (xs : List Char)
    (h : pat.isPrefixOf (x :: xs) = false) :
    replaceFirstL pat (x :: xs) = x :: replaceFirstL pat xs := by
  rw [replaceFirstL, if_neg (by simp [h])]

theorem replaceFirstL_ws_egg (ws v : List Char)
    (hws : ∀ c ∈ ws, isJsWhitespace c = true) :
    replaceFirstL eggSessEq (ws ++ (eggSessEq ++ v)) = ws ++ v := by
  induction ws with
  | nil =>
    simp only [List.nil_append]
    rw [replaceFirstL_of_isPrefixOf eggSessEq _ (by decide)
      (by rw [List.isPrefixOf_iff_prefix]; exact List.prefix_append _ _)]
    exact List.drop_left _ _
  | cons c cs ih =>
    have hc := hws c (by simp)
    simp only [List.cons_append]
    rw [replaceFirstL_cons_of_neg _ _ _ (egg_not_prefix_of_ws_cons c _ hc)]
    rw [ih (fun d hd => hws d (by simp [hd]))]

/-- C9 amended: for a folded set-cookie header of the form
pre ++ "," ++ ws ++ "EGG_SESS_ICONFONT=" ++ v ++ ";" ++ post — no entry of
pre naming the session cookie, ws all whitespace, v free of "," and ";" —
the fallback extraction returns ws ++ v: the entry's value with its
leading whitespace retained, which is the bare value exactly when the
entry carries no leading whitespace. -/
theorem extractEggSess_folded (pre ws v post : List Char)
    (hpre : ∀ seg ∈ splitOnChar ',' pre, eggSessEq.isPrefixOf (trimJs seg) = false)
    (hws : ∀ c ∈ ws, isJsWhitespace c = true)
    (hv₁ : ',' ∉ v) (hv₂ : ';' ∉ v) :
    extractEggSess (pre ++ ',' :: (ws ++ eggSessEq ++ v ++ ';' :: post)) = some (ws ++ v) := by
  have hsplit : splitOnChar ',' (pre ++ ',' :: (ws ++ eggSessEq ++ v ++ ';' :: post)) =
      splitOnChar ',' pre ++ splitOnChar ',' (ws ++ eggSessEq ++ v ++ ';' :: post) :=
    splitOnChar_append_sep ',' pre _
  have hassoc : ws ++ eggSessEq ++ v ++ ';' :: post =
      (ws ++ (eggSessEq ++ (v ++ [';']))) ++ post := by
    simp [List.append_assoc]
  have hnosep : (',' : Char) ∉ ws ++ (eggSessEq ++ (v ++ [';'])) := by
    intro hm
    rcases List.mem_append.1 hm with h | h
    · exact ws_ne_comma (hws _ h) rfl
    rcases List.mem_append.1 h with h | h
    · revert h
      decide
    rcases List.mem_append.1 h with h | h
    · exact hv₁ h
    · simp at h
  have hrest : splitOnChar ',' (ws ++ eggSessEq ++ v ++ ';' :: post) =
      ((ws ++ (eggSessEq ++ (v ++ [';']))) ++ (splitOnChar ',' post).headD []) ::
        (splitOnChar ',' post).tail := by
    rw [hassoc]
    exact splitOnChar_append_no_sep ',' _ post hnosep
  have hseg : eggSessEq.isPrefixOf (trimJs
      ((ws ++ (eggSessEq ++ (v ++ [';']))) ++ (splitOnChar ',' post).headD [])) = true := by
    have hre : (ws ++ (eggSessEq ++ (v ++ [';']))) ++ (splitOnChar ',' post).headD [] =
        ws ++ (eggSessEq ++ ((v ++ [';']) ++ (splitOnChar ',' post).headD [])) := by
      simp [List.append_assoc]
    rw [hre]
    exact egg_isPrefixOf_trimJs ws _ hws
  have hfind : (splitOnChar ',' (pre ++ ',' :: (ws ++ eggSessEq ++ v ++ ';' :: post))).find?
      (fun c => eggSessEq.isPrefixOf (trimJs c)) =
      some ((ws ++ (eggSessEq ++ (v ++ [';']))) ++ (splitOnChar ',' post).headD []) := by
    rw [hsplit, hrest, List.find?_append]
    have hnone : (splitOnChar ',' pre).find? (fun c => eggSessEq.isPrefixOf (trimJs c)) = none := by
      rw [List.find?_eq_none]
      intro x hx
      simp [hpre x hx]
    rw [hnone]
    have hcons : List.find? (fun c => eggSessEq.isPrefixOf (trimJs c))
        (((ws ++ (eggSessEq ++ (v ++ [';']))) ++ (splitOnChar ',' post).headD []) ::
          (splitOnChar ',' post).tail) =
        some ((ws ++ (eggSessEq ++ (v ++ [';']))) ++ (splitOnChar ',' post).headD []) := by
      apply List.find?_cons_of_pos
      exact hseg
    rw [hcons]
    rfl
  have hfinal : extractEggSess (pre ++ ',' :: (ws ++ eggSessEq ++ v ++ ';' :: post)) =
      some (replaceFirstL eggSessEq ((splitOnChar ';'
        ((ws ++ (eggSessEq ++ (v ++ [';']))) ++ (splitOnChar ',' post).headD [])).headD [])) := by
    unfold extractEggSess
    rw [hfind]
  rw [hfinal]
  have hre2 : (ws ++ (eggSessEq ++ (v ++ [';']))) ++ (splitOnChar ',' post).headD [] =
      (ws ++ (eggSessEq ++ v)) ++ (';' :: ((splitOnChar ',' post).headD [])) := by
    simp [List.append_assoc]
  rw [hre2]
  have hsemi : (';' : Char) ∉ ws ++ (eggSessEq ++ v) := by
    intro hm
    rcases List.mem_append.1 hm with h | h
    · exact ws_ne_semi (hws _ h) rfl
    rcases List.mem_append.1 h with h | h
    · revert h
      decide
    · exact hv₂ h
  rw [splitOnChar_append_no_sep ';' (ws ++ (eggSessEq ++ v))
    (';' :: ((splitOnChar ',' post).headD [])) hsemi]
  have hsc : splitOnChar ';' (';' :: ((splitOnChar ',' post).headD [])) =
      [] :: splitOnChar ';' ((splitOnChar ',' post).headD []) := by
    rw [splitOnChar]
    simp
  rw [hsc]
  simp only [List.headD_cons, List.append_nil]
  rw [replaceFirstL_ws_egg ws v hws]

/-- C9 counterexample: on a folded header whose session-cookie entry
carries the customary leading space, the extracted token keeps that space
— it is not the cookie's value with only the name prefix removed, as the
claim states for headers with leading whitespace. -/
theorem extract_keeps_leading_whitespace :
    extractEggSess ("other=1, EGG_SESS_ICONFONT=abc; path=/".toList) = some (" abc".toList) ∧
    extractEggSess ("other=1, EGG_SESS_ICONFONT=abc; path=/".toList) ≠ some ("abc".toList) := by
  constructor
  · decide
  · decide

theorem extractEggSess_folded_witness :
    extractEggSess ("other=1".toList ++ ',' :: (" ".toList ++ eggSessEq ++ "abc".toList ++
      ';' :: " path=/".toList)) = some (" ".toList ++ "abc".toList) :=
  extractEggSess_folded ("other=1".toList) (" ".toList) ("abc".toList) (" path=/".toList)
    (by decide) (by decide) (by decide) (by decide)
